import Mathlib

set_option maxRecDepth 100000
set_option linter.unusedVariables false
set_option linter.unnecessarySeqFocus false

/-!
Verification of the model-catalog reconciliation engine of the `models`
repository.

The repository maintains per-provider catalogs of AI-model metadata records.
Two TypeScript sync engines carry the merge logic verified here:

* `packages/core/script/generate-venice.ts` (the Venice engine), and
* the Vercel generator script (the Vercel engine),

together with the shared family list `packages/core/src/family.ts` and the
shell inclusion filter
`providers/cloudflare-ai-gateway/scripts/utils.sh` (`should_include_model`).

Every definition below is a direct shallow embedding of the corresponding
source function.  JavaScript numbers are modelled as `Int` (token counts,
timestamps) or `ℚ` (prices); optional / possibly-`undefined` values are
modelled as `Option`; JavaScript string truthiness (`""` is falsy) is made
explicit where the source relies on it.
-/

/-! ## Generic string helpers (JS `String.prototype.includes`, subsequence) -/

/-- Does the first list start with the second one?  (helper for substring
search). -/
def charsStartWith : List Char → List Char → Bool
  | _, [] => true
  | [], _ :: _ => false
  | h :: hs, n :: ns => h = n && charsStartWith hs ns

/-- Does `needle` occur contiguously inside `hay`?  Mirrors JS
`hay.includes(needle)`. -/
def charsInclude (needle : List Char) : List Char → Bool
  | [] => needle.isEmpty
  | h :: hs => charsStartWith (h :: hs) needle || charsInclude needle hs

/-- JS `hay.includes(needle)` on strings. -/
def strIncludes (hay needle : String) : Bool :=
  charsInclude needle.data hay.data

/-- `s.startsWith pre` (structural, so it computes under `decide`). -/
def strStartsWith (s pre : String) : Bool :=
  charsStartWith s.data pre.data

/-- ASCII lowercasing (JS `toLowerCase` on the ASCII ids and names the
system handles). -/
def strToLower (s : String) : String :=
  String.mk (s.data.map Char.toLower)

/-- First `/`-separated segment of an id (`cut -d'/' -f1`). -/
def providerOf (id : String) : String :=
  String.mk (id.data.takeWhile (fun c => c ≠ '/'))

/-- Greedy subsequence matcher: the loop of `matchesFamily` in the source —
walk the target once, advancing through the family characters. -/
def isSubseqChars : List Char → List Char → Bool
  | [], _ => true
  | _ :: _, [] => false
  | f :: fs, t :: ts => if t = f then isSubseqChars fs ts else isSubseqChars (f :: fs) ts

/-- JS truthiness filter for an optional string field: `undefined` and the
empty string are both falsy.  Used wherever the source writes
`...(value && { value })` or `if (existing?.field)`. -/
def jsTruthyStr : Option String → Option String
  | none => none
  | some s => if s = "" then none else some s

/-! ## `ModelFamilyValues` — `packages/core/src/family.ts` -/

/-- The full family list, in source order (the duplicate `"trinity"` entry is
in the source). -/
def ModelFamilyValues : List String :=
  ["trinity", "trinity-mini",
   "gpt", "gpt-codex", "gpt-codex-spark", "gpt-codex-mini", "gpt-pro",
   "gpt-mini", "gpt-nano", "gpt-oss",
   "o", "o-mini", "o-pro",
   "claude", "claude-haiku", "claude-sonnet", "claude-opus",
   "gemini", "gemini-pro", "gemini-flash", "gemini-flash-lite", "gemini-embedding",
   "glm", "glmv", "glm-air", "glm-flash", "glm-free", "glm-z",
   "llama", "qwen", "deepseek", "deepseek-thinking", "phi",
   "kimi", "kimi-free", "kimi-thinking",
   "mistral", "mistral-large", "mistral-medium", "mistral-small",
   "mistral-nemo", "ministral", "codestral", "devstral", "pixtral", "mixtral",
   "grok", "grok-vision", "grok-beta",
   "gemma", "nova", "nova-pro", "nova-lite", "nova-micro",
   "command", "command-r", "command-a", "command-light",
   "jamba", "nemotron", "titan", "titan-embed",
   "minimax", "minimax-free", "hunyuan", "yi", "granite", "reka",
   "sonar", "sonar-pro", "sonar-reasoning", "sonar-deep-research",
   "solar", "solar-mini", "solar-pro", "exaone", "step",
   "text-embedding", "cohere-embed", "voyage", "mistral-embed", "bge",
   "plamo", "codestral-embed",
   "dall-e", "flux", "imagen", "recraft", "stable-diffusion", "ideogram",
   "dreamshaper",
   "sora", "veo", "runway", "dream-machine",
   "whisper", "elevenlabs", "lyria", "melotts",
   "ernie", "hermes", "zephyr", "openchat", "starling", "qvq", "sherlock",
   "pony", "mercury", "cogito", "mimo", "longcat",
   "magistral", "magistral-small", "magistral-medium",
   "phoenix", "trinity", "lucid", "intellect", "aura", "jais", "sarvam",
   "falcon", "baichuan", "skywork", "bart", "distilbert", "resnet", "m2m",
   "indictrans", "llava", "seed", "ray", "tstars", "rnj", "ling", "ring",
   "kat-coder", "sqlcoder", "discolm", "osmosis", "parakeet", "nemoretriever",
   "nano-banana", "una-cybertron", "morph", "voxtral", "venice",
   "auto", "model-router", "v0", "tako", "mai", "rednote", "smart-turn",
   "qwerky", "big-pickle", "chutesai", "opengvlab", "tngtech", "topazlabs",
   "unsloth", "nousresearch", "alpha", "oswe", "neural-chat", "pangu",
   "liquid", "sourceful", "allenai", "palmyra"]

/-- Stable insertion step for descending-length order: `x` goes after every
strictly longer element and before equal-length ones, matching the stable JS
`sort((a, b) => b.length - a.length)`. -/
def insertDescLen (x : String) : List String → List String
  | [] => [x]
  | y :: ys => if x.length < y.length then y :: insertDescLen x ys else x :: y :: ys

/-- Stable sort by descending string length (JS `Array.prototype.sort` is
stable, so this computes exactly the source's `sortedFamilies`). -/
def sortDescLen (l : List String) : List String :=
  l.foldr insertDescLen []

/-- `matchesFamily` from both engines: case-insensitive subsequence test. -/
def matchesFamily (target family : String) : Bool :=
  isSubseqChars (strToLower family).data (strToLower target).data

/-- `isSubstring` from the Vercel engine: case-insensitive contiguous
substring test. -/
def isSubstring (target family : String) : Bool :=
  strIncludes (strToLower target) (strToLower family)

/-- `inferFamily` of the Venice engine: longest families first, subsequence
match on the id, then on the display name. -/
def veniceInferFamily (modelId modelName : String) : Option String :=
  let sorted := sortDescLen ModelFamilyValues
  match sorted.find? (fun fam => matchesFamily modelId fam) with
  | some fam => some fam
  | none => sorted.find? (fun fam => matchesFamily modelName fam)

/-- `inferFamily` of the Vercel engine: substring passes over id then name,
falling back to subsequence passes over id then name. -/
def vercelInferFamily (modelId modelName : String) : Option String :=
  let sorted := sortDescLen ModelFamilyValues
  match sorted.find? (fun fam => isSubstring modelId fam) with
  | some fam => some fam
  | none =>
    match sorted.find? (fun fam => isSubstring modelName fam) with
    | some fam => some fam
    | none =>
      match sorted.find? (fun fam => matchesFamily modelId fam) with
      | some fam => some fam
      | none => sorted.find? (fun fam => matchesFamily modelName fam)

/-! ## Calendar helper — `timestampToDate` (both engines)

`new Date(ts * 1000).toISOString().slice(0, 10)`: the civil UTC date of an
epoch-second timestamp, zero-padded `YYYY-MM-DD`. -/

/-- Left-pad a numeral string with zeros. -/
def padZeros (width : Nat) (s : String) : String :=
  if s.length < width then String.mk (List.replicate (width - s.length) '0') ++ s else s

/-- Civil date (year, month, day) from days since 1970-01-01 (Howard
Hinnant's `civil_from_days`, valid for the dates the API produces). -/
def civilFromDays (z0 : Int) : Int × Nat × Nat :=
  let z := z0 + 719468
  let era := Int.fdiv z 146097
  let doe := (z - era * 146097).toNat
  let yoe := (doe - doe / 1460 + doe / 36524 - doe / 146096) / 365
  let y := (yoe : Int) + era * 400
  let doy := doe - (365 * yoe + yoe / 4 - yoe / 100)
  let mp := (5 * doy + 2) / 153
  let d := doy - (153 * mp + 2) / 5 + 1
  let m := if mp < 10 then mp + 3 else mp - 9
  (if m ≤ 2 then y + 1 else y, m, d)

/-- `timestampToDate`: epoch seconds to `YYYY-MM-DD`. -/
def timestampToDate (ts : Int) : String :=
  let c := civilFromDays (Int.fdiv ts 86400)
  padZeros 4 (toString c.1) ++ "-" ++ padZeros 2 (toString c.2.1) ++ "-" ++
    padZeros 2 (toString c.2.2)

/-! ## Shared record pieces -/

/-- `interleaved` is either a boolean or a `{ field }` table in the TOML. -/
inductive Interleaved where
  | bool (b : Bool)
  | field (f : String)
  deriving DecidableEq, Repr

/-- Untyped JS value as seen by the change detectors (`JSON.stringify`
equality on these values is structural equality). -/
inductive JVal where
  | str (s : String)
  | num (q : ℚ)
  | bool (b : Bool)
  | arr (l : List String)
  | undef
  deriving DecidableEq, Repr

/-- Lift an optional string field into a `JVal`. -/
def jstr : Option String → JVal
  | none => JVal.undef
  | some s => JVal.str s

/-- Lift an optional rational field into a `JVal`. -/
def jnum : Option ℚ → JVal
  | none => JVal.undef
  | some q => JVal.num q

/-- Lift an optional integer field into a `JVal`. -/
def jint : Option Int → JVal
  | none => JVal.undef
  | some i => JVal.num (i : ℚ)

/-- Lift an optional boolean field into a `JVal`. -/
def jbool : Option Bool → JVal
  | none => JVal.undef
  | some b => JVal.bool b

/-- Lift an optional string-list field into a `JVal`. -/
def jarr : Option (List String) → JVal
  | none => JVal.undef
  | some l => JVal.arr l

/-- One reported change. The source formats `oldValue`/`newValue` as display
strings; no claim inspects the formatting, so the raw values are kept. -/
structure ChangeEntry where
  field : String
  oldValue : JVal
  newValue : JVal
  deriving DecidableEq, Repr

/-! ## The Venice engine — `packages/core/script/generate-venice.ts` -/

namespace Venice

/-- Capability flags consumed by the merge (schema fields the engine never
reads — `optimizedForCode`, `quantization`, `supportsLogProbs`,
`supportsWebSearch` — are omitted; they cannot affect any verified
behaviour). -/
structure Capabilities where
  supportsAudioInput : Option Bool := none
  supportsFunctionCalling : Option Bool := none
  supportsReasoning : Option Bool := none
  supportsResponseSchema : Option Bool := none
  supportsVideoInput : Option Bool := none
  supportsVision : Option Bool := none
  deriving DecidableEq, Repr

/-- One pricing entry; `usd` is the only field the engine reads. -/
structure PricingTier where
  usd : ℚ
  deriving DecidableEq, Repr

/-- `extended` pricing block (maps to `cost.context_over_200k`). -/
structure ExtendedPricing where
  input : PricingTier
  output : PricingTier
  cache_input : Option PricingTier := none
  cache_write : Option PricingTier := none
  deriving DecidableEq, Repr

/-- API pricing block. -/
structure Pricing where
  input : PricingTier
  output : PricingTier
  cache_input : Option PricingTier := none
  cache_write : Option PricingTier := none
  extended : Option ExtendedPricing := none
  deriving DecidableEq, Repr

/-- `model_spec` of a Venice API record (unused schema fields `constraints`,
`offline`, `traits` omitted). -/
structure ModelSpec where
  pricing : Option Pricing := none
  availableContextTokens : Int
  capabilities : Capabilities
  name : String
  modelSource : Option String := none
  privacy : Option String := none
  deriving DecidableEq, Repr

/-- A validated Venice API record (unused fields `object`, `owned_by`,
`type` omitted). -/
structure VeniceModel where
  created : Int
  id : String
  model_spec : ModelSpec
  deriving DecidableEq, Repr

/-- Existing `cost.context_over_200k` sub-table of a persisted record. -/
structure ExistingCost200k where
  input : Option ℚ := none
  output : Option ℚ := none
  cache_read : Option ℚ := none
  cache_write : Option ℚ := none
  deriving DecidableEq, Repr

/-- Existing `cost` table of a persisted record. -/
structure ExistingCost where
  input : Option ℚ := none
  output : Option ℚ := none
  reasoning : Option ℚ := none
  cache_read : Option ℚ := none
  cache_write : Option ℚ := none
  context_over_200k : Option ExistingCost200k := none
  deriving DecidableEq, Repr

/-- Existing `limit` table of a persisted record. -/
structure ExistingLimit where
  context : Option Int := none
  input : Option Int := none
  output : Option Int := none
  deriving DecidableEq, Repr

/-- Existing `modalities` table of a persisted record. -/
structure ExistingModalities where
  input : Option (List String) := none
  output : Option (List String) := none
  deriving DecidableEq, Repr

/-- A previously persisted record as parsed from TOML (every field may be
absent; the unused `provider` table is omitted). -/
structure ExistingModel where
  name : Option String := none
  family : Option String := none
  attachment : Option Bool := none
  reasoning : Option Bool := none
  tool_call : Option Bool := none
  structured_output : Option Bool := none
  temperature : Option Bool := none
  knowledge : Option String := none
  release_date : Option String := none
  last_updated : Option String := none
  open_weights : Option Bool := none
  interleaved : Option Interleaved := none
  status : Option String := none
  cost : Option ExistingCost := none
  limit : Option ExistingLimit := none
  modalities : Option ExistingModalities := none
  deriving DecidableEq, Repr

/-- Merged `cost.context_over_200k` block. -/
structure MergedCost200k where
  input : ℚ
  output : ℚ
  cache_read : Option ℚ := none
  cache_write : Option ℚ := none
  deriving DecidableEq, Repr

/-- Merged `cost` block. -/
structure MergedCost where
  input : ℚ
  output : ℚ
  cache_read : Option ℚ := none
  cache_write : Option ℚ := none
  context_over_200k : Option MergedCost200k := none
  deriving DecidableEq, Repr

/-- Merged `limit` block. -/
structure MergedLimit where
  context : Int
  output : Int
  deriving DecidableEq, Repr

/-- Merged `modalities` block. -/
structure MergedModalities where
  input : List String
  output : List String
  deriving DecidableEq, Repr

/-- The merged record the engine writes back. -/
structure MergedModel where
  name : String
  family : Option String := none
  attachment : Bool
  reasoning : Bool
  tool_call : Bool
  structured_output : Option Bool := none
  temperature : Bool
  knowledge : Option String := none
  release_date : String
  last_updated : String
  open_weights : Bool
  interleaved : Option Interleaved := none
  status : Option String := none
  cost : Option MergedCost := none
  limit : MergedLimit
  modalities : MergedModalities
  deriving DecidableEq, Repr

/-- `buildInputModalities`: text, plus image / audio / video per capability
flags (truthiness of an optional boolean is `= some true`). -/
def buildInputModalities (caps : Capabilities) : List String :=
  let mods := ["text"]
  let mods := if caps.supportsVision = some true then mods ++ ["image"] else mods
  let mods := if caps.supportsAudioInput = some true then mods ++ ["audio"] else mods
  if caps.supportsVideoInput = some true then mods ++ ["video"] else mods

/-- `mergeModel` of the Venice engine.  `today` stands for
`getTodayDate()` (the run date). -/
def mergeModel (apiModel : VeniceModel) (existing : Option ExistingModel)
    (today : String) : MergedModel :=
  let spec := apiModel.model_spec
  let caps := spec.capabilities
  let contextTokens := spec.availableContextTokens
  let proposedOutputTokens := Int.fdiv contextTokens 4
  let outputTokens :=
    match existing.bind (fun e => e.limit.bind (fun l => l.output)) with
    | some o => if o < proposedOutputTokens then o else proposedOutputTokens
    | none => proposedOutputTokens
  let openWeights :=
    match spec.modelSource with
    | some src => if src = "" then spec.privacy = some "private"
                  else strIncludes (strToLower src) "huggingface"
    | none => spec.privacy = some "private"
  let baseMods := buildInputModalities caps
  let existingHasPdf :=
    match existing.bind (fun e => e.modalities.bind (fun m => m.input)) with
    | some l => l.contains "pdf"
    | none => false
  let inputModalities :=
    if existingHasPdf && !(baseMods.contains "pdf") then baseMods ++ ["pdf"]
    else baseMods
  let attachment :=
    caps.supportsVision = some true || caps.supportsAudioInput = some true ||
      caps.supportsVideoInput = some true
  { name := spec.name
    attachment := attachment
    reasoning := caps.supportsReasoning = some true
    tool_call := caps.supportsFunctionCalling = some true
    temperature := true
    release_date := timestampToDate apiModel.created
    last_updated := today
    open_weights := openWeights
    limit := { context := contextTokens, output := outputTokens }
    modalities := { input := inputModalities, output := ["text"] }
    structured_output :=
      if caps.supportsResponseSchema = some true then some true else none
    cost := spec.pricing.map (fun p =>
      { input := p.input.usd
        output := p.output.usd
        cache_read := p.cache_input.map (fun t => t.usd)
        cache_write := p.cache_write.map (fun t => t.usd)
        context_over_200k := p.extended.map (fun ex =>
          { input := ex.input.usd
            output := ex.output.usd
            cache_read := ex.cache_input.map (fun t => t.usd)
            cache_write := ex.cache_write.map (fun t => t.usd) }) })
    family :=
      match veniceInferFamily apiModel.id spec.name with
      | some fam => some fam
      | none => existing.bind (fun e => e.family)
    knowledge := jsTruthyStr (existing.bind (fun e => e.knowledge))
    interleaved := existing.bind (fun e => e.interleaved)
    status := existing.bind (fun e => e.status) }

/-- One comparison step of the Venice `detectChanges`: exact
(`JSON.stringify`) equality for every field. -/
def compareField (field : String) (oldVal newVal : JVal) : List ChangeEntry :=
  if oldVal = newVal then [] else [{ field := field, oldValue := oldVal, newValue := newVal }]

/-- `detectChanges` of the Venice engine: ordered field-by-field diff, exact
equality everywhere (no cost tolerance). -/
def detectChanges (existing : Option ExistingModel) (merged : MergedModel) :
    List ChangeEntry :=
  match existing with
  | none => []
  | some e =>
    compareField "name" (jstr e.name) (JVal.str merged.name) ++
    compareField "family" (jstr e.family) (jstr merged.family) ++
    compareField "attachment" (jbool e.attachment) (JVal.bool merged.attachment) ++
    compareField "reasoning" (jbool e.reasoning) (JVal.bool merged.reasoning) ++
    compareField "tool_call" (jbool e.tool_call) (JVal.bool merged.tool_call) ++
    compareField "structured_output" (jbool e.structured_output)
      (jbool merged.structured_output) ++
    compareField "open_weights" (jbool e.open_weights)
      (JVal.bool merged.open_weights) ++
    compareField "release_date" (jstr e.release_date)
      (JVal.str merged.release_date) ++
    compareField "cost.input" (jnum (e.cost.bind (fun c => c.input)))
      (jnum (merged.cost.map (fun c => c.input))) ++
    compareField "cost.output" (jnum (e.cost.bind (fun c => c.output)))
      (jnum (merged.cost.map (fun c => c.output))) ++
    compareField "cost.cache_read" (jnum (e.cost.bind (fun c => c.cache_read)))
      (jnum (merged.cost.bind (fun c => c.cache_read))) ++
    compareField "cost.cache_write" (jnum (e.cost.bind (fun c => c.cache_write)))
      (jnum (merged.cost.bind (fun c => c.cache_write))) ++
    compareField "cost.context_over_200k.input"
      (jnum (e.cost.bind (fun c => c.context_over_200k.bind (fun x => x.input))))
      (jnum (merged.cost.bind (fun c => c.context_over_200k.map (fun x => x.input)))) ++
    compareField "cost.context_over_200k.output"
      (jnum (e.cost.bind (fun c => c.context_over_200k.bind (fun x => x.output))))
      (jnum (merged.cost.bind (fun c => c.context_over_200k.map (fun x => x.output)))) ++
    compareField "cost.context_over_200k.cache_read"
      (jnum (e.cost.bind (fun c => c.context_over_200k.bind (fun x => x.cache_read))))
      (jnum (merged.cost.bind (fun c => c.context_over_200k.bind (fun x => x.cache_read)))) ++
    compareField "cost.context_over_200k.cache_write"
      (jnum (e.cost.bind (fun c => c.context_over_200k.bind (fun x => x.cache_write))))
      (jnum (merged.cost.bind (fun c => c.context_over_200k.bind (fun x => x.cache_write)))) ++
    compareField "limit.context" (jint (e.limit.bind (fun l => l.context)))
      (JVal.num (merged.limit.context : ℚ)) ++
    compareField "limit.output" (jint (e.limit.bind (fun l => l.output)))
      (JVal.num (merged.limit.output : ℚ)) ++
    compareField "modalities.input" (jarr (e.modalities.bind (fun m => m.input)))
      (JVal.arr merged.modalities.input)

/-- View a just-merged record as the existing record of the next run (every
field present verbatim) — the `m1` of the idempotence property used directly
as `existing`. -/
def asExisting (m : MergedModel) : ExistingModel :=
  { name := some m.name
    family := m.family
    attachment := some m.attachment
    reasoning := some m.reasoning
    tool_call := some m.tool_call
    structured_output := m.structured_output
    temperature := some m.temperature
    knowledge := m.knowledge
    release_date := some m.release_date
    last_updated := some m.last_updated
    open_weights := some m.open_weights
    interleaved := m.interleaved
    status := m.status
    cost := m.cost.map (fun c =>
      { input := some c.input
        output := some c.output
        reasoning := none
        cache_read := c.cache_read
        cache_write := c.cache_write
        context_over_200k := c.context_over_200k.map (fun x =>
          { input := some x.input
            output := some x.output
            cache_read := x.cache_read
            cache_write := x.cache_write }) })
    limit := some { context := some m.limit.context, output := some m.limit.output }
    modalities := some { input := some m.modalities.input, output := some m.modalities.output } }

end Venice

/-! ## The Vercel engine — the AI-Gateway generator script -/

namespace Vercel

/-- `ModelType` enum of the Vercel API. -/
inductive ModelType where
  | language
  | embedding
  | image
  | video
  deriving DecidableEq, Repr

/-- One pricing tier; `cost` is the only field the engine reads (`min` /
`max` are never used).  Prices arrive as decimal strings and reach the
record through `parseFloat`; each is modelled as the parsed rational, an
empty or non-numeric price string as `none`. -/
structure PricingTier where
  cost : ℚ
  deriving DecidableEq, Repr

/-- API pricing block of a Vercel model. -/
structure Pricing where
  input : Option ℚ := none
  output : Option ℚ := none
  input_cache_read : Option ℚ := none
  input_cache_write : Option ℚ := none
  input_tiers : Option (List PricingTier) := none
  output_tiers : Option (List PricingTier) := none
  input_cache_read_tiers : Option (List PricingTier) := none
  input_cache_write_tiers : Option (List PricingTier) := none
  deriving DecidableEq, Repr

/-- A validated Vercel API record. -/
structure VercelModel where
  id : String
  name : String
  created : Int
  released : Option Int := none
  context_window : Int
  max_tokens : Int
  type : ModelType
  tags : List String := []
  pricing : Option Pricing := none
  deriving DecidableEq, Repr

/-- Existing `cost` table of a persisted Vercel record. -/
structure ExistingCost where
  input : Option ℚ := none
  output : Option ℚ := none
  cache_read : Option ℚ := none
  cache_write : Option ℚ := none
  deriving DecidableEq, Repr

/-- Existing `limit` table of a persisted Vercel record. -/
structure ExistingLimit where
  context : Option Int := none
  output : Option Int := none
  deriving DecidableEq, Repr

/-- Existing `modalities` table of a persisted Vercel record. -/
structure ExistingModalities where
  input : Option (List String) := none
  output : Option (List String) := none
  deriving DecidableEq, Repr

/-- A previously persisted Vercel record as parsed from TOML. -/
structure ExistingModel where
  name : Option String := none
  family : Option String := none
  attachment : Option Bool := none
  reasoning : Option Bool := none
  tool_call : Option Bool := none
  structured_output : Option Bool := none
  temperature : Option Bool := none
  knowledge : Option String := none
  release_date : Option String := none
  last_updated : Option String := none
  open_weights : Option Bool := none
  interleaved : Option Interleaved := none
  status : Option String := none
  cost : Option ExistingCost := none
  limit : Option ExistingLimit := none
  modalities : Option ExistingModalities := none
  deriving DecidableEq, Repr

/-- Merged `cost` block of the Vercel engine. -/
structure MergedCost where
  input : ℚ
  output : ℚ
  cache_read : Option ℚ := none
  cache_write : Option ℚ := none
  deriving DecidableEq, Repr

/-- Merged `limit` block. -/
structure MergedLimit where
  context : Int
  output : Int
  deriving DecidableEq, Repr

/-- Merged `modalities` block. -/
structure MergedModalities where
  input : List String
  output : List String
  deriving DecidableEq, Repr

/-- The merged record the Vercel engine writes back. -/
structure MergedModel where
  name : String
  family : Option String := none
  attachment : Bool
  reasoning : Bool
  tool_call : Bool
  structured_output : Option Bool := none
  temperature : Bool
  knowledge : Option String := none
  release_date : String
  last_updated : String
  open_weights : Bool
  interleaved : Option Interleaved := none
  status : Option String := none
  cost : Option MergedCost := none
  limit : MergedLimit
  modalities : MergedModalities
  deriving DecidableEq, Repr

/-- `buildInputModalities`: text, plus image for the `vision` tag and pdf
for the `file-input` tag. -/
def buildInputModalities (tags : List String) : List String :=
  let mods := ["text"]
  let mods := if tags.contains "vision" then mods ++ ["image"] else mods
  if tags.contains "file-input" then mods ++ ["pdf"] else mods

/-- `buildOutputModalities`: text, plus image for image models or the
`image-generation` tag, else video for video models. -/
def buildOutputModalities (modelType : ModelType) (tags : List String) : List String :=
  let mods := ["text"]
  if modelType = ModelType.image || tags.contains "image-generation" then
    mods ++ ["image"]
  else if modelType = ModelType.video then mods ++ ["video"]
  else mods

/-- First tier cost if a tier list is present and non-empty
(`tiers?.[0]?.cost`). -/
def firstTierCost : Option (List PricingTier) → Option ℚ
  | some (t :: _) => some t.cost
  | some [] => none
  | none => none

/-- `mergeModel` of the Vercel engine.  `today` stands for
`getTodayDate()`. -/
def mergeModel (apiModel : VercelModel) (existing : Option ExistingModel)
    (today : String) : MergedModel :=
  let tags := apiModel.tags
  let inputModalities := buildInputModalities tags
  let outputModalities := buildOutputModalities apiModel.type tags
  let name := (existing.bind (fun e => e.name)).getD apiModel.name
  let attachment := (existing.bind (fun e => e.attachment)).getD
    (tags.contains "vision" || tags.contains "file-input")
  let reasoning := (existing.bind (fun e => e.reasoning)).getD (tags.contains "reasoning")
  let toolCall := (existing.bind (fun e => e.tool_call)).getD (tags.contains "tool-use")
  let openWeights := (existing.bind (fun e => e.open_weights)).getD false
  let family :=
    match existing.bind (fun e => e.family) with
    | some fam => some fam
    | none => vercelInferFamily apiModel.id apiModel.name
  let structuredOutput := existing.bind (fun e => e.structured_output)
  let knowledge := existing.bind (fun e => e.knowledge)
  let interleaved := existing.bind (fun e => e.interleaved)
  let status := existing.bind (fun e => e.status)
  -- `apiModel.released ?` is a JS truthiness test on a number: 0 is falsy.
  let releaseDate :=
    match apiModel.released with
    | some r => if r ≠ 0 then timestampToDate r
                else (existing.bind (fun e => e.release_date)).getD today
    | none => (existing.bind (fun e => e.release_date)).getD today
  let contextLimit :=
    if apiModel.context_window > 0 then apiModel.context_window
    else (existing.bind (fun e => e.limit.bind (fun l => l.context))).getD 0
  let outputLimit :=
    if apiModel.max_tokens > 0 then apiModel.max_tokens
    else (existing.bind (fun e => e.limit.bind (fun l => l.output))).getD 0
  let cost :=
    match apiModel.pricing with
    | none => none
    | some p =>
      let inputPrice :=
        match firstTierCost p.input_tiers with
        | some c => some c
        | none => p.input
      let outputPrice :=
        match firstTierCost p.output_tiers with
        | some c => some c
        | none => p.output
      let cacheReadPrice :=
        match firstTierCost p.input_cache_read_tiers with
        | some c => some c
        | none => p.input_cache_read
      let cacheWritePrice :=
        match firstTierCost p.input_cache_write_tiers with
        | some c => some c
        | none => p.input_cache_write
      match inputPrice, outputPrice with
      | some ip, some op =>
        some { input := ip * 1000000
               output := op * 1000000
               cache_read := cacheReadPrice.map (fun c => c * 1000000)
               cache_write := cacheWritePrice.map (fun c => c * 1000000) }
      | _, _ => none
  { name := name
    family := family
    attachment := attachment
    reasoning := reasoning
    tool_call := toolCall
    temperature := true
    release_date := releaseDate
    last_updated := today
    open_weights := openWeights
    structured_output := structuredOutput
    knowledge := jsTruthyStr knowledge
    interleaved := interleaved
    status := jsTruthyStr status
    cost := cost
    limit := { context := contextLimit, output := outputLimit }
    modalities := { input := inputModalities, output := outputModalities } }

/-- `EPSILON` of the Vercel `detectChanges` (price diff to ignore, per
million tokens). -/
def EPSILON : ℚ := 1 / 1000

/-- The `SkipZeroFields` enum values. -/
def SkipZeroFields : List String := ["limit.context", "limit.output"]

/-- `shouldSkipZero`: suppress limit transitions where either side reads as
the number zero. -/
def shouldSkipZero (field : String) (oldVal newVal : JVal) : Bool :=
  if !(SkipZeroFields.contains field) then false
  else oldVal = JVal.num 0 || newVal = JVal.num 0

/-- `isMaterialPriceDiff`: `0 → undefined` is immaterial; two present prices
differ materially only beyond `EPSILON`; otherwise plain inequality. -/
def isMaterialPriceDiff (oldPrice newPrice : JVal) : Bool :=
  if oldPrice = JVal.num 0 && newPrice = JVal.undef then false
  else
    match oldPrice, newPrice with
    | JVal.num a, JVal.num b => |a - b| > EPSILON
    | ov, nv => ov ≠ nv

/-- One comparison step of the Vercel `detectChanges`. -/
def compareField (field : String) (oldVal newVal : JVal) : List ChangeEntry :=
  if shouldSkipZero field oldVal newVal then []
  else if (if strStartsWith field "cost." then isMaterialPriceDiff oldVal newVal
           else oldVal ≠ newVal) then
    [{ field := field, oldValue := oldVal, newValue := newVal }]
  else []

/-- `detectChanges` of the Vercel engine. -/
def detectChanges (existing : Option ExistingModel) (merged : MergedModel) :
    List ChangeEntry :=
  match existing with
  | none => []
  | some e =>
    compareField "name" (jstr e.name) (JVal.str merged.name) ++
    compareField "family" (jstr e.family) (jstr merged.family) ++
    compareField "attachment" (jbool e.attachment) (JVal.bool merged.attachment) ++
    compareField "reasoning" (jbool e.reasoning) (JVal.bool merged.reasoning) ++
    compareField "tool_call" (jbool e.tool_call) (JVal.bool merged.tool_call) ++
    compareField "structured_output" (jbool e.structured_output)
      (jbool merged.structured_output) ++
    compareField "open_weights" (jbool e.open_weights)
      (JVal.bool merged.open_weights) ++
    compareField "release_date" (jstr e.release_date)
      (JVal.str merged.release_date) ++
    compareField "cost.input" (jnum (e.cost.bind (fun c => c.input)))
      (jnum (merged.cost.map (fun c => c.input))) ++
    compareField "cost.output" (jnum (e.cost.bind (fun c => c.output)))
      (jnum (merged.cost.map (fun c => c.output))) ++
    compareField "cost.cache_read" (jnum (e.cost.bind (fun c => c.cache_read)))
      (jnum (merged.cost.bind (fun c => c.cache_read))) ++
    compareField "cost.cache_write" (jnum (e.cost.bind (fun c => c.cache_write)))
      (jnum (merged.cost.bind (fun c => c.cache_write))) ++
    compareField "limit.context" (jint (e.limit.bind (fun l => l.context)))
      (JVal.num (merged.limit.context : ℚ)) ++
    compareField "limit.output" (jint (e.limit.bind (fun l => l.output)))
      (JVal.num (merged.limit.output : ℚ)) ++
    compareField "modalities.input" (jarr (e.modalities.bind (fun m => m.input)))
      (JVal.arr merged.modalities.input)

/-- View a just-merged record directly as the next run's existing record. -/
def asExisting (m : MergedModel) : ExistingModel :=
  { name := some m.name
    family := m.family
    attachment := some m.attachment
    reasoning := some m.reasoning
    tool_call := some m.tool_call
    structured_output := m.structured_output
    temperature := some m.temperature
    knowledge := m.knowledge
    release_date := some m.release_date
    last_updated := some m.last_updated
    open_weights := some m.open_weights
    interleaved := m.interleaved
    status := m.status
    cost := m.cost.map (fun c =>
      { input := some c.input
        output := some c.output
        cache_read := c.cache_read
        cache_write := c.cache_write })
    limit := some { context := some m.limit.context, output := some m.limit.output }
    modalities := some { input := some m.modalities.input, output := some m.modalities.output } }

end Vercel

namespace Vercel

/-- The record obtained by re-parsing the TOML file `formatToml` writes:
`formatToml` emits optional string fields only when truthy and omits an
`interleaved = false` value entirely, so those come back absent. -/
def toExistingOnDisk (m : MergedModel) : ExistingModel :=
  { name := some m.name
    family := jsTruthyStr m.family
    attachment := some m.attachment
    reasoning := some m.reasoning
    tool_call := some m.tool_call
    structured_output := m.structured_output
    temperature := some m.temperature
    knowledge := jsTruthyStr m.knowledge
    release_date := some m.release_date
    last_updated := some m.last_updated
    open_weights := some m.open_weights
    interleaved :=
      match m.interleaved with
      | some (Interleaved.bool false) => none
      | other => other
    status := jsTruthyStr m.status
    cost := m.cost.map (fun c =>
      { input := some c.input
        output := some c.output
        cache_read := c.cache_read
        cache_write := c.cache_write })
    limit := some { context := some m.limit.context, output := some m.limit.output }
    modalities := some { input := some m.modalities.input, output := some m.modalities.output } }

/-- The image/video skip guard at the top of the per-model loop. -/
def skipType (t : ModelType) : Bool :=
  t = ModelType.image || t = ModelType.video

/-- `relativePath` used both as store key and as processed-id set entry. -/
def modelPath (m : VercelModel) : String :=
  m.id ++ ".toml"

/-- The on-disk store as an association list; a write shadows the previous
entry. -/
def lookupStore : List (String × ExistingModel) → String → Option ExistingModel
  | [], _ => none
  | (k, v) :: rest, key => if k = key then some v else lookupStore rest key

/-- Mutable state of the driver loop of `main`. -/
structure DriverState where
  created : Nat := 0
  updated : Nat := 0
  unchanged : Nat := 0
  apiModelIds : List String := []
  store : List (String × ExistingModel) := []
  writes : List String := []
  deriving DecidableEq, Repr

/-- One iteration of the per-model loop of `main`: skip image/video models
(before recording the id), otherwise record the id, load, merge, classify,
and — only outside dry-run — write. -/
def processModel (dryRun newOnly : Bool) (today : String) (st : DriverState)
    (m : VercelModel) : DriverState :=
  if skipType m.type then st
  else
    let relativePath := modelPath m
    let st1 := { st with apiModelIds := st.apiModelIds ++ [relativePath] }
    let existing := lookupStore st1.store relativePath
    let merged := mergeModel m existing today
    match existing with
    | none =>
      let st2 := { st1 with created := st1.created + 1 }
      if dryRun then st2
      else { st2 with store := (relativePath, toExistingOnDisk merged) :: st2.store
                      writes := st2.writes ++ [relativePath] }
    | some e =>
      if newOnly then { st1 with unchanged := st1.unchanged + 1 }
      else if (detectChanges (some e) merged).length > 0 then
        let st2 := { st1 with updated := st1.updated + 1 }
        if dryRun then st2
        else { st2 with store := (relativePath, toExistingOnDisk merged) :: st2.store
                        writes := st2.writes ++ [relativePath] }
      else { st1 with unchanged := st1.unchanged + 1 }

/-- The whole per-model loop. -/
def runLoop (dryRun newOnly : Bool) (today : String) :
    DriverState → List VercelModel → DriverState
  | st, [] => st
  | st, m :: ms => runLoop dryRun newOnly today (processModel dryRun newOnly today st m) ms

/-- Final report of one `main` invocation. -/
structure SyncReport where
  created : Nat
  updated : Nat
  unchanged : Nat
  orphaned : List String
  store : List (String × ExistingModel)
  writes : List String
  deriving DecidableEq, Repr

/-- `main` of the Vercel engine, as a function of the fetched catalog, the
initial on-disk store, the glob result `existingFiles`, and the run date:
run the loop, then report every existing file whose path was never recorded
as orphaned. -/
def runSync (dryRun newOnly : Bool) (models : List VercelModel)
    (store0 : List (String × ExistingModel)) (existingFiles : List String)
    (today : String) : SyncReport :=
  let st := runLoop dryRun newOnly today { store := store0 } models
  { created := st.created
    updated := st.updated
    unchanged := st.unchanged
    orphaned := existingFiles.filter (fun f => !(st.apiModelIds.contains f))
    store := st.store
    writes := st.writes }

end Vercel

/-! ## The Cloudflare AI Gateway inclusion filter —
`providers/cloudflare-ai-gateway/scripts/utils.sh`, `should_include_model` -/

namespace CF

/-- `INCLUDE_ALL_PROVIDERS` (word-split). -/
def INCLUDE_ALL_PROVIDERS : List String := ["workers-ai"]

/-- `SKIP_NAMESPACES` (word-split). -/
def SKIP_NAMESPACES : List String := ["replicate/replicate-internal"]

/-- `SKIP_MODELS` (word-split). -/
def SKIP_MODELS : List String := ["aura-1", "whisper"]

/-- An element of a `WELL_KNOWN_MODELS` regex: a literal character or the
`[\.-]` class (the only constructs the configured patterns use). -/
inductive PatElem where
  | lit (c : Char)
  | dotOrDash
  deriving DecidableEq, Repr

/-- Literal pattern segment. -/
def litPat (s : String) : List PatElem :=
  s.data.map PatElem.lit

/-- `WELL_KNOWN_MODELS`.  Every configured pattern ends in `$` and is
matched with `grep -qE "^pattern"`, so each denotes an exact whole-id match
(modulo the `[\.-]` class). -/
def WELL_KNOWN_MODELS : List (List PatElem) :=
  [litPat "openai/gpt-5" ++ [PatElem.dotOrDash] ++ litPat "2",
   litPat "openai/gpt-5" ++ [PatElem.dotOrDash] ++ litPat "1",
   litPat "openai/gpt-5" ++ [PatElem.dotOrDash] ++ litPat "1-codex",
   litPat "openai/gpt-4o",
   litPat "openai/gpt-4o-mini",
   litPat "openai/gpt-4-turbo",
   litPat "openai/gpt-4",
   litPat "openai/gpt-3" ++ [PatElem.dotOrDash] ++ litPat "5-turbo",
   litPat "openai/o1",
   litPat "openai/o3",
   litPat "openai/o3-mini",
   litPat "openai/o3-pro",
   litPat "openai/o4-mini",
   litPat "anthropic/claude-sonnet-4-5",
   litPat "anthropic/claude-opus-4-6",
   litPat "anthropic/claude-opus-4-5",
   litPat "anthropic/claude-haiku-4-5",
   litPat "anthropic/claude-opus-4-1",
   litPat "anthropic/claude-sonnet-4",
   litPat "anthropic/claude-opus-4",
   litPat "anthropic/claude-3" ++ [PatElem.dotOrDash] ++ litPat "5-sonnet",
   litPat "anthropic/claude-3" ++ [PatElem.dotOrDash] ++ litPat "5-haiku",
   litPat "anthropic/claude-3-opus",
   litPat "anthropic/claude-3-sonnet",
   litPat "anthropic/claude-3-haiku"]

/-- Does one pattern element match one character? -/
def patElemMatches : PatElem → Char → Bool
  | PatElem.lit c, x => x = c
  | PatElem.dotOrDash, x => x = '.' || x = '-'

/-- Anchored match of a whole pattern against a whole id. -/
def patMatches : List PatElem → List Char → Bool
  | [], cs => cs.isEmpty
  | _ :: _, [] => false
  | p :: ps, c :: cs => patElemMatches p c && patMatches ps cs

/-- `should_include_model`: skip-substring, then skip-namespace, then the
include-all providers (with the `workers-ai/@cf/` sub-rule), then the
well-known patterns; everything else excluded.  All comparisons are the
shell's literal (case-sensitive) ones. -/
def shouldIncludeModel (modelId : String) : Bool :=
  let provider := providerOf modelId
  if SKIP_MODELS.any (fun skip => strIncludes modelId skip) then false
  else if SKIP_NAMESPACES.any (fun ns => strStartsWith modelId (ns ++ "/")) then false
  else if INCLUDE_ALL_PROVIDERS.any (fun p => provider = p) then
    if provider = "workers-ai" && !(strStartsWith modelId "workers-ai/@cf/") then false
    else true
  else WELL_KNOWN_MODELS.any (fun pat => patMatches pat modelId.data)

end CF

/-! ## Concrete inputs used by counterexamples and witnesses -/

/-- C1 source input: the Vercel API proposes `max_tokens = 8000`. -/
def cexC1Src : Vercel.VercelModel :=
  { id := "m1", name := "M1", created := 0, context_window := 16000,
    max_tokens := 8000, type := Vercel.ModelType.language }

/-- C1 existing record: a manually tightened `limit.output = 4000`. -/
def cexC1Ex : Vercel.ExistingModel :=
  { limit := some { output := some 4000 } }

/-- C1 Venice-side input: `availableContextTokens = 32000`, so the computed
proposal is `32000 / 4 = 8000`. -/
def cexC1VSrc : Venice.VeniceModel :=
  { created := 0, id := "m1v",
    model_spec := { availableContextTokens := 32000, capabilities := {}, name := "M1V" } }

/-- C1 Venice-side existing record with `limit.output = 4000`. -/
def cexC1VEx : Venice.ExistingModel :=
  { limit := some { output := some 4000 } }

/-- C2 source input providing the name `"New Name"`. -/
def cexC2Src : Vercel.VercelModel :=
  { id := "m2", name := "New Name", created := 0, context_window := 1,
    max_tokens := 1, type := Vercel.ModelType.language }

/-- C2 existing record pinning the name `"Old Name"`. -/
def cexC2Ex : Vercel.ExistingModel :=
  { name := some "Old Name" }

/-- C3 Venice source whose id/name infer the family `"llama"`. -/
def cexC3Src : Venice.VeniceModel :=
  { created := 0, id := "llama-3.3-70b",
    model_spec := { availableContextTokens := 4096, capabilities := {},
                    name := "Llama 3.3 70B" } }

/-- C3 existing record with the family manually pinned to `"qwen"`. -/
def cexC3Ex : Venice.ExistingModel :=
  { family := some "qwen" }

/-- C4 existing record whose `knowledge` field is set to the empty string. -/
def cexC4Ex : Venice.ExistingModel :=
  { knowledge := some "" }

/-- C4 source input (content irrelevant to the pass-through fields). -/
def cexC4Src : Venice.VeniceModel :=
  { created := 0, id := "zz4",
    model_spec := { availableContextTokens := 4, capabilities := {}, name := "ZZ4" } }


/-- Cost-field proximity used by C9: both values present and within
`EPSILON` of each other, or literally equal options. -/
def withinEps (a b : Option ℚ) : Prop :=
  (∃ x y, a = some x ∧ b = some y ∧ |x - y| ≤ Vercel.EPSILON) ∨ a = b

/-- C9 merged record (Venice side) with `cost.input = 2001/2000`. -/
def cexC9Merged : Venice.MergedModel :=
  { name := "M9", attachment := false, reasoning := false, tool_call := false,
    temperature := true, release_date := "2026-01-01", last_updated := "2026-01-01",
    open_weights := false,
    cost := some { input := mkRat 2001 2000, output := 2 },
    limit := { context := 1000, output := 250 },
    modalities := { input := ["text"], output := ["text"] } }

/-- C9 existing record: agrees with `cexC9Merged` everywhere except
`cost.input = 1` — a difference of `1/2000`, below the Vercel epsilon. -/
def cexC9Ex : Venice.ExistingModel :=
  { Venice.asExisting cexC9Merged with
    cost := some { input := some 1, output := some 2 } }

/-- C9 witness merged record (Vercel side), same sub-epsilon situation. -/
def cexC9WMerged : Vercel.MergedModel :=
  { name := "M9w", attachment := false, reasoning := false, tool_call := false,
    temperature := true, release_date := "2026-01-01", last_updated := "2026-01-01",
    open_weights := false,
    cost := some { input := mkRat 2001 2000, output := 2 },
    limit := { context := 1000, output := 250 },
    modalities := { input := ["text"], output := ["text"] } }

/-- C9 witness existing record (Vercel side). -/
def cexC9WEx : Vercel.ExistingModel :=
  { Vercel.asExisting cexC9WMerged with
    cost := some { input := some 1, output := some 2 } }


/-- The store paths of the source models the Vercel driver actually
processes (image/video models are skipped before their path is recorded). -/
def Vercel.pathsOf (ms : List Vercel.VercelModel) : List String :=
  ms.filterMap (fun m => if Vercel.skipType m.type then none else some (Vercel.modelPath m))

/-- C6 source record: an ordinary language model. -/
def cexC6Model : Vercel.VercelModel :=
  { id := "zz6", name := "ZZ6", created := 100, context_window := 100,
    max_tokens := 10, type := Vercel.ModelType.language }

/-- C10 source record: an image-type model the driver skips. -/
def cexC10Model : Vercel.VercelModel :=
  { id := "img", name := "IMG", created := 0, context_window := 1,
    max_tokens := 1, type := Vercel.ModelType.image }

/-! ## Theorems -/

/-- C7: the inclusion filter excludes `foo/whisper-large-v3` (skip-substring
`whisper`), includes `workers-ai/@cf/meta/llama`, excludes
`workers-ai/embedding-model` (missing `@cf` namespace), and skip-substrings
dominate every later allow rule: any id containing a configured
skip-substring is excluded. -/
theorem C7_filter_correctness :
    CF.shouldIncludeModel "foo/whisper-large-v3" = false ∧
    CF.shouldIncludeModel "workers-ai/@cf/meta/llama" = true ∧
    CF.shouldIncludeModel "workers-ai/embedding-model" = false ∧
    (∀ (modelId skip : String), skip ∈ CF.SKIP_MODELS →
      strIncludes modelId skip = true → CF.shouldIncludeModel modelId = false) := by
  refine ⟨by decide, by decide, by decide, ?_⟩
  intro modelId skip hmem hinc
  have h : CF.SKIP_MODELS.any (fun s => strIncludes modelId s) = true :=
    List.any_eq_true.mpr ⟨skip, hmem, hinc⟩
  simp [CF.shouldIncludeModel, h]

/-- C7 witness: `workers-ai/@cf/whisper-tiny` matches the include-all
provider rule, yet the `whisper` skip-substring excludes it. -/
theorem C7_witness :
    ("whisper" ∈ CF.SKIP_MODELS ∧
      strIncludes "workers-ai/@cf/whisper-tiny" "whisper" = true) ∧
    CF.shouldIncludeModel "workers-ai/@cf/whisper-tiny" = false :=
  ⟨⟨by decide, by decide⟩,
   C7_filter_correctness.2.2.2 "workers-ai/@cf/whisper-tiny" "whisper"
     (by decide) (by decide)⟩

/-- C8 counterexample: classification is not invariant under lowercasing —
the uppercase spelling `WORKERS-AI/@cf/meta/llama` is excluded while its
lowercase form is included. -/
theorem C8_cex :
    ¬ (CF.shouldIncludeModel "WORKERS-AI/@cf/meta/llama" =
       CF.shouldIncludeModel (strToLower "WORKERS-AI/@cf/meta/llama")) := by decide

/-- C8 amended: the filter's comparisons are case-sensitive (bash `[[ == ]]`
globs and `grep -E` without `-i`); an uppercase spelling of an included id
is excluded rather than treated identically. -/
theorem C8_case_sensitive :
    CF.shouldIncludeModel "workers-ai/@cf/meta/llama" = true ∧
    CF.shouldIncludeModel "WORKERS-AI/@cf/meta/llama" = false := by decide

/-- C1 counterexample: in the Vercel engine, with `existing.limit.output =
4000` and a freshly proposed `max_tokens = 8000`, the merged record takes
8000 — the smaller existing value is not kept. -/
theorem C1_cex :
    ¬ ((Vercel.mergeModel cexC1Src (some cexC1Ex) "2026-01-01").limit.output = 4000) := by
  decide

/-- C1 amended: conservative-limit stickiness holds in the Venice engine
(the smaller existing `limit.output` beats the computed `⌊context/4⌋`
proposal, with 4000 kept against a proposal of 8000); the Vercel engine
instead takes the API `max_tokens` whenever positive and falls back to the
existing value (else 0) only when the API reports no positive value. -/
theorem C1_limit_output :
    (∀ (s : Venice.VeniceModel) (e : Venice.ExistingModel) (d : String),
      (Venice.mergeModel s (some e) d).limit.output =
        match e.limit.bind (fun l => l.output) with
        | some o =>
          if o < Int.fdiv s.model_spec.availableContextTokens 4 then o
          else Int.fdiv s.model_spec.availableContextTokens 4
        | none => Int.fdiv s.model_spec.availableContextTokens 4) ∧
    (∀ (s : Vercel.VercelModel) (e : Vercel.ExistingModel) (d : String),
      (Vercel.mergeModel s (some e) d).limit.output =
        if s.max_tokens > 0 then s.max_tokens
        else (e.limit.bind (fun l => l.output)).getD 0) ∧
    (Venice.mergeModel cexC1VSrc (some cexC1VEx) "2026-01-01").limit.output = 4000 ∧
    (Vercel.mergeModel cexC1Src (some cexC1Ex) "2026-01-01").limit.output = 8000 :=
  ⟨fun s e d => rfl, fun s e d => rfl, by decide, by decide⟩

/-- C2 counterexample: in the Vercel engine the source-provided name
`"New Name"` loses to the existing record's `"Old Name"`. -/
theorem C2_cex :
    ¬ ((Vercel.mergeModel cexC2Src (some cexC2Ex) "2026-01-01").name = cexC2Src.name) := by
  decide

/-- C2 amended: the Venice engine always takes the source name; the Vercel
engine keeps the existing name whenever one is present and uses the source
name only when the existing record provides none. -/
theorem C2_name_provenance :
    (∀ (s : Venice.VeniceModel) (e : Option Venice.ExistingModel) (d : String),
      (Venice.mergeModel s e d).name = s.model_spec.name) ∧
    (∀ (s : Vercel.VercelModel) (e : Vercel.ExistingModel) (d : String),
      (Vercel.mergeModel s (some e) d).name = e.name.getD s.name) ∧
    (∀ (s : Vercel.VercelModel) (d : String),
      (Vercel.mergeModel s none d).name = s.name) :=
  ⟨fun s e d => rfl, fun s e d => rfl, fun s d => rfl⟩

/-- C3 counterexample: in the Venice engine an existing pinned family
(`"qwen"`) is overwritten by the freshly inferred `"llama"`. -/
theorem C3_cex :
    ¬ ((Venice.mergeModel cexC3Src (some cexC3Ex) "2026-01-01").family = cexC3Ex.family) := by
  decide

/-- C3 amended: the existing pinned family wins in the Vercel engine only;
the Venice engine prefers the freshly inferred family and keeps the existing
value just as a fallback when inference fails (so the pinned `"qwen"` above
is replaced by the inferred `"llama"`). -/
theorem C3_family_provenance :
    (∀ (s : Vercel.VercelModel) (e : Vercel.ExistingModel) (d : String),
      (Vercel.mergeModel s (some e) d).family =
        match e.family with
        | some f => some f
        | none => vercelInferFamily s.id s.name) ∧
    (∀ (s : Venice.VeniceModel) (e : Venice.ExistingModel) (d : String),
      (Venice.mergeModel s (some e) d).family =
        match veniceInferFamily s.id s.model_spec.name with
        | some f => some f
        | none => e.family) ∧
    (Venice.mergeModel cexC3Src (some cexC3Ex) "2026-01-01").family = some "llama" :=
  ⟨fun s e d => rfl, fun s e d => rfl, by decide⟩

/-- C4 counterexample: with `existing.knowledge` set to the empty string,
the Venice engine's merged record drops the field instead of copying it. -/
theorem C4_cex :
    ¬ ((Venice.mergeModel cexC4Src (some cexC4Ex) "2026-01-01").knowledge =
       cexC4Ex.knowledge) := by
  decide

/-- C4 amended: `knowledge`, `interleaved` and `status` are copied from the
existing record only and never derived from the source (changing the source
record or run date never changes them); they are omitted when the existing
record is absent; `interleaved` (both engines) and `status` (Venice engine)
are copied whenever present, while `knowledge` (both engines) and `status`
(Vercel engine) go through JS truthiness, so an empty-string value is
dropped rather than copied. -/
theorem C4_passthrough :
    (∀ (s1 s2 : Venice.VeniceModel) (e : Option Venice.ExistingModel) (d1 d2 : String),
      (Venice.mergeModel s1 e d1).knowledge = (Venice.mergeModel s2 e d2).knowledge ∧
      (Venice.mergeModel s1 e d1).interleaved = (Venice.mergeModel s2 e d2).interleaved ∧
      (Venice.mergeModel s1 e d1).status = (Venice.mergeModel s2 e d2).status) ∧
    (∀ (s1 s2 : Vercel.VercelModel) (e : Option Vercel.ExistingModel) (d1 d2 : String),
      (Vercel.mergeModel s1 e d1).knowledge = (Vercel.mergeModel s2 e d2).knowledge ∧
      (Vercel.mergeModel s1 e d1).interleaved = (Vercel.mergeModel s2 e d2).interleaved ∧
      (Vercel.mergeModel s1 e d1).status = (Vercel.mergeModel s2 e d2).status) ∧
    (∀ (s : Venice.VeniceModel) (e : Venice.ExistingModel) (d : String),
      (Venice.mergeModel s (some e) d).knowledge = jsTruthyStr e.knowledge ∧
      (Venice.mergeModel s (some e) d).interleaved = e.interleaved ∧
      (Venice.mergeModel s (some e) d).status = e.status) ∧
    (∀ (s : Vercel.VercelModel) (e : Vercel.ExistingModel) (d : String),
      (Vercel.mergeModel s (some e) d).knowledge = jsTruthyStr e.knowledge ∧
      (Vercel.mergeModel s (some e) d).interleaved = e.interleaved ∧
      (Vercel.mergeModel s (some e) d).status = jsTruthyStr e.status) ∧
    (∀ (s : Venice.VeniceModel) (d : String),
      (Venice.mergeModel s none d).knowledge = none ∧
      (Venice.mergeModel s none d).interleaved = none ∧
      (Venice.mergeModel s none d).status = none) ∧
    (∀ (s : Vercel.VercelModel) (d : String),
      (Vercel.mergeModel s none d).knowledge = none ∧
      (Vercel.mergeModel s none d).interleaved = none ∧
      (Vercel.mergeModel s none d).status = none) :=
  ⟨fun s1 s2 e d1 d2 => ⟨rfl, rfl, rfl⟩,
   fun s1 s2 e d1 d2 => ⟨rfl, rfl, rfl⟩,
   fun s e d => ⟨rfl, rfl, rfl⟩,
   fun s e d => ⟨rfl, rfl, rfl⟩,
   fun s d => ⟨rfl, rfl, rfl⟩,
   fun s d => ⟨rfl, rfl, rfl⟩⟩

/-- Comparing a field with itself never reports a change (Venice detector). -/
theorem veniceCompareField_self (f : String) (v : JVal) :
    Venice.compareField f v v = [] := by
  simp [Venice.compareField]

/-- Comparing a field with itself never reports a change (Vercel detector). -/
theorem vercelCompareField_self (f : String) (v : JVal) :
    Vercel.compareField f v v = [] := by
  rcases v with s | q | b | l | _ <;>
    simp [Vercel.compareField, Vercel.isMaterialPriceDiff, Vercel.EPSILON]

/-- A cost field whose two sides are within epsilon (or equal) is not
reported by the Vercel detector. -/
theorem vercelCompareField_costNear (f : String)
    (hf : strStartsWith f "cost." = true)
    (hsk : Vercel.SkipZeroFields.contains f = false)
    (a b : Option ℚ) (h : withinEps a b) :
    Vercel.compareField f (jnum a) (jnum b) = [] := by
  rcases h with ⟨x, y, rfl, rfl, hle⟩ | rfl
  · have hng : ¬ (|x - y| > Vercel.EPSILON) := not_lt.mpr hle
    simp [Vercel.compareField, Vercel.shouldSkipZero, Vercel.isMaterialPriceDiff,
      hf, hsk, jnum, hng]
  · exact vercelCompareField_self f (jnum a)

/-- The `1/2000` gap between the C9 cost values is below the configured
epsilon. -/
theorem cexC9_gap_below_epsilon :
    |(1 : ℚ) - mkRat 2001 2000| ≤ Vercel.EPSILON := by
  rw [Rat.mkRat_eq_div, abs_le, Vercel.EPSILON]
  constructor <;> norm_num

/-- C9 counterexample: the Venice change detector has no cost tolerance —
two records agreeing exactly everywhere except a `1/2000` (below-epsilon)
difference in `cost.input` still produce a non-empty change list. -/
theorem C9_cex :
    withinEps (cexC9Ex.cost.bind (fun c => c.input))
      (cexC9Merged.cost.map (fun c => c.input)) ∧
    Venice.detectChanges (some cexC9Ex) cexC9Merged ≠ [] := by
  refine ⟨Or.inl ⟨1, mkRat 2001 2000, rfl, rfl, cexC9_gap_below_epsilon⟩, ?_⟩
  decide

/-- C9 amended: the epsilon tolerance for cost fields belongs to the Vercel
detector only: there, records that agree exactly on every compared non-cost
field and whose cost values are within `EPSILON = 0.001` (or equal as
options) yield an empty change list.  The Venice detector compares cost
exactly, so a sub-epsilon difference is reported (see the counterexample). -/
theorem C9_cost_epsilon :
    ∀ (e : Vercel.ExistingModel) (m : Vercel.MergedModel),
      e.name = some m.name →
      e.family = m.family →
      e.attachment = some m.attachment →
      e.reasoning = some m.reasoning →
      e.tool_call = some m.tool_call →
      e.structured_output = m.structured_output →
      e.open_weights = some m.open_weights →
      e.release_date = some m.release_date →
      e.limit.bind (fun l => l.context) = some m.limit.context →
      e.limit.bind (fun l => l.output) = some m.limit.output →
      e.modalities.bind (fun mo => mo.input) = some m.modalities.input →
      withinEps (e.cost.bind (fun c => c.input)) (m.cost.map (fun c => c.input)) →
      withinEps (e.cost.bind (fun c => c.output)) (m.cost.map (fun c => c.output)) →
      withinEps (e.cost.bind (fun c => c.cache_read)) (m.cost.bind (fun c => c.cache_read)) →
      withinEps (e.cost.bind (fun c => c.cache_write)) (m.cost.bind (fun c => c.cache_write)) →
      Vercel.detectChanges (some e) m = [] := by
  intro e m h1 h2 h3 h4 h5 h6 h7 h8 h9 h10 h11 hc1 hc2 hc3 hc4
  have e1 := vercelCompareField_costNear "cost.input" (by decide) (by decide) _ _ hc1
  have e2 := vercelCompareField_costNear "cost.output" (by decide) (by decide) _ _ hc2
  have e3 := vercelCompareField_costNear "cost.cache_read" (by decide) (by decide) _ _ hc3
  have e4 := vercelCompareField_costNear "cost.cache_write" (by decide) (by decide) _ _ hc4
  simp only [Vercel.detectChanges]
  rw [h1, h2, h3, h4, h5, h6, h7, h8, h9, h10, h11]
  simp [jstr, jbool, jint, jarr, vercelCompareField_self, e1, e2, e3, e4]

/-- C9 witness: the Vercel detector applied to concrete records differing
only by a sub-epsilon `cost.input` reports no change. -/
theorem C9_witness :
    Vercel.detectChanges (some cexC9WEx) cexC9WMerged = [] :=
  C9_cost_epsilon cexC9WEx cexC9WMerged rfl rfl rfl rfl rfl rfl rfl rfl rfl rfl rfl
    (Or.inl ⟨1, mkRat 2001 2000, rfl, rfl, cexC9_gap_below_epsilon⟩)
    (Or.inr rfl) (Or.inr rfl) (Or.inr rfl)

/-- JS truthiness filtering is idempotent. -/
theorem jsTruthyStr_idem (o : Option String) :
    jsTruthyStr (jsTruthyStr o) = jsTruthyStr o := by
  rcases o with _ | s
  · rfl
  · simp only [jsTruthyStr]
    split <;> simp_all [jsTruthyStr]

/-- The Venice capability-derived input modalities never contain `pdf` (only
the existing-record preservation step can add it). -/
theorem venice_buildInput_no_pdf (caps : Venice.Capabilities) :
    "pdf" ∉ Venice.buildInputModalities caps := by
  simp only [Venice.buildInputModalities]
  split_ifs <;> decide

/-- Re-merging the Venice engine's own output against the same source only
refreshes `last_updated`. -/
theorem venice_remerge (s : Venice.VeniceModel) (e : Option Venice.ExistingModel)
    (d1 d2 : String) :
    Venice.mergeModel s (some (Venice.asExisting (Venice.mergeModel s e d1))) d2 =
      { Venice.mergeModel s e d1 with last_updated := d2 } := by
  simp only [Venice.mergeModel, Venice.asExisting, Option.bind_some, Option.some_bind,
    Venice.MergedModel.mk.injEq, jsTruthyStr_idem]
  norm_num
  refine ⟨?_, ?_, ?_⟩
  · rcases hinf : veniceInferFamily s.id s.model_spec.name with _ | f <;> simp [hinf]
  · rcases hov : e.bind (fun e => e.limit.bind fun l => l.output) with _ | o
    · intro h
      simp
    · intro h
      have h2 : s.model_spec.availableContextTokens.fdiv 4 ≤
          if o < s.model_spec.availableContextTokens.fdiv 4 then o
          else s.model_spec.availableContextTokens.fdiv 4 := h
      show s.model_spec.availableContextTokens.fdiv 4 =
          if o < s.model_spec.availableContextTokens.fdiv 4 then o
          else s.model_spec.availableContextTokens.fdiv 4
      by_cases hlt : o < s.model_spec.availableContextTokens.fdiv 4
      · rw [if_pos hlt] at h2 ⊢
        omega
      · rw [if_neg hlt]
  · have hpdf := venice_buildInput_no_pdf s.model_spec.capabilities
    rcases hov : e.bind (fun e => e.modalities.bind fun m => m.input) with _ | l
    · simp [hpdf]
    · by_cases hl : "pdf" ∈ l <;> simp [hl, hpdf]

/-- The Venice change detector never flags a record against its own
re-serialized image with only `last_updated` refreshed. -/
theorem venice_detect_refresh (m : Venice.MergedModel) (d : String) :
    Venice.detectChanges (some (Venice.asExisting m)) { m with last_updated := d } = [] := by
  rcases m with ⟨name, family, att, rea, tc, so, temp, kn, rd, lu, ow, il, st, cost, lim, mods⟩
  rcases lim with ⟨lc, lo⟩
  rcases mods with ⟨mi, mo⟩
  rcases cost with _ | ⟨ci, co, ccr, ccw, c200⟩
  · simp [Venice.detectChanges, Venice.asExisting, veniceCompareField_self,
      jstr, jbool, jint, jarr, jnum]
  · rcases c200 with _ | ⟨ti, to2, tcr, tcw⟩ <;>
      simp [Venice.detectChanges, Venice.asExisting, veniceCompareField_self,
        jstr, jbool, jint, jarr, jnum]

/-- Re-merging the Vercel engine's own output against the same source only
refreshes `last_updated`. -/
theorem vercel_remerge (s : Vercel.VercelModel) (e : Option Vercel.ExistingModel)
    (d1 d2 : String) :
    Vercel.mergeModel s (some (Vercel.asExisting (Vercel.mergeModel s e d1))) d2 =
      { Vercel.mergeModel s e d1 with last_updated := d2 } := by
  simp only [Vercel.mergeModel, Vercel.asExisting, Option.bind_some, Option.some_bind,
    Option.getD_some, Vercel.MergedModel.mk.injEq, jsTruthyStr_idem]
  norm_num
  refine ⟨?_, ?_, ?_, ?_⟩
  · rcases hfam : e.bind (fun e => e.family) with _ | f
    · rcases hinf : vercelInferFamily s.id s.name with _ | g <;> simp [hinf]
    · simp
  · rcases hrel : s.released with _ | r
    · simp
    · by_cases hr : r = 0 <;> simp [hr]
  · intro h
    rw [if_pos h]
  · intro h
    rw [if_pos h]

/-- The Vercel change detector never flags a record against its own
re-serialized image with only `last_updated` refreshed. -/
theorem vercel_detect_refresh (m : Vercel.MergedModel) (d : String) :
    Vercel.detectChanges (some (Vercel.asExisting m)) { m with last_updated := d } = [] := by
  rcases m with ⟨name, family, att, rea, tc, so, temp, kn, rd, lu, ow, il, st, cost, lim, mods⟩
  rcases lim with ⟨lc, lo⟩
  rcases mods with ⟨mi, mo⟩
  rcases cost with _ | ⟨ci, co, ccr, ccw⟩ <;>
    simp [Vercel.detectChanges, Vercel.asExisting, vercelCompareField_self,
      jstr, jbool, jint, jarr, jnum]

/-- C5: idempotence of both reconcile engines — merging a source record
against the engine's own previous output (under any two run dates) yields a
record the change detector reports as unchanged, so a second run against
unchanged source data reports zero changes for every record. -/
theorem C5_idempotence :
    ∀ (sv : Venice.VeniceModel) (ev : Option Venice.ExistingModel)
      (sw : Vercel.VercelModel) (ew : Option Vercel.ExistingModel) (d1 d2 : String),
      Venice.detectChanges (some (Venice.asExisting (Venice.mergeModel sv ev d1)))
        (Venice.mergeModel sv (some (Venice.asExisting (Venice.mergeModel sv ev d1))) d2) = [] ∧
      Vercel.detectChanges (some (Vercel.asExisting (Vercel.mergeModel sw ew d1)))
        (Vercel.mergeModel sw (some (Vercel.asExisting (Vercel.mergeModel sw ew d1))) d2) = [] := by
  intro sv ev sw ew d1 d2
  constructor
  · rw [venice_remerge]
    exact venice_detect_refresh _ _
  · rw [vercel_remerge]
    exact vercel_detect_refresh _ _

/-- A skipped (image/video) model leaves the driver state untouched. -/
theorem processModel_skip (dr n : Bool) (d : String) (st : Vercel.DriverState)
    (m : Vercel.VercelModel) (hs : Vercel.skipType m.type = true) :
    Vercel.processModel dr n d st m = st := by
  simp [Vercel.processModel, hs]

set_option maxHeartbeats 1000000 in
/-- A processed (non-skipped) model appends exactly its path to the
processed-id list, in every branch. -/
theorem processModel_ids (dr n : Bool) (d : String) (st : Vercel.DriverState)
    (m : Vercel.VercelModel) (hs : Vercel.skipType m.type = false) :
    (Vercel.processModel dr n d st m).apiModelIds = st.apiModelIds ++ [Vercel.modelPath m] := by
  rcases hE : Vercel.lookupStore st.store (Vercel.modelPath m) with _ | e <;>
    simp only [Vercel.processModel, hs, Bool.false_eq_true, if_false, hE] <;>
    split <;> (try split) <;> (try split) <;> rfl

/-- Looking a key up after a write sees the write exactly at that key. -/
theorem lookupStore_cons (k : String) (v : Vercel.ExistingModel)
    (st : List (String × Vercel.ExistingModel)) (key : String) :
    Vercel.lookupStore ((k, v) :: st) key =
      if k = key then some v else Vercel.lookupStore st key := rfl

theorem pathsOf_cons_skip (m : Vercel.VercelModel) (ms : List Vercel.VercelModel)
    (hs : Vercel.skipType m.type = true) :
    Vercel.pathsOf (m :: ms) = Vercel.pathsOf ms := by
  simp [Vercel.pathsOf, hs]

theorem pathsOf_cons_nonskip (m : Vercel.VercelModel) (ms : List Vercel.VercelModel)
    (hs : Vercel.skipType m.type = false) :
    Vercel.pathsOf (m :: ms) = Vercel.modelPath m :: Vercel.pathsOf ms := by
  simp [Vercel.pathsOf, hs]

/-- Membership in the processed-path list characterized. -/
theorem pathsOf_mem (p : String) (ms : List Vercel.VercelModel) :
    p ∈ Vercel.pathsOf ms ↔
      ∃ m, m ∈ ms ∧ Vercel.skipType m.type = false ∧ Vercel.modelPath m = p := by
  simp only [Vercel.pathsOf, List.mem_filterMap]
  constructor
  · rintro ⟨m, hm, hf⟩
    cases hs : Vercel.skipType m.type
    · rw [hs] at hf
      simp only [Bool.false_eq_true, if_false] at hf
      exact ⟨m, hm, hs, Option.some.inj hf⟩
    · rw [hs] at hf
      simp at hf
  · rintro ⟨m, hm, hs, rfl⟩
    refine ⟨m, hm, ?_⟩
    rw [hs]
    simp

set_option maxHeartbeats 1000000 in
/-- In dry-run mode no branch of the per-model step touches the store or the
write log. -/
theorem processModel_dry_store (n : Bool) (d : String) (st : Vercel.DriverState)
    (m : Vercel.VercelModel) :
    (Vercel.processModel true n d st m).store = st.store ∧
    (Vercel.processModel true n d st m).writes = st.writes := by
  cases hs : Vercel.skipType m.type
  · rcases hE : Vercel.lookupStore st.store (Vercel.modelPath m) with _ | e
    · constructor <;>
        simp only [Vercel.processModel, hs, Bool.false_eq_true, if_false, hE,
          eq_self_iff_true, if_true]
    · constructor <;>
        (simp only [Vercel.processModel, hs, Bool.false_eq_true, if_false, hE,
           eq_self_iff_true, if_true] <;>
         split <;> (try split) <;> rfl)
  · rw [processModel_skip true n d st m hs]
    exact ⟨rfl, rfl⟩

set_option maxHeartbeats 1000000 in
/-- A real-run per-model step either leaves the store alone or prepends one
entry at the model's own path. -/
theorem processModel_real_store (n : Bool) (d : String) (st : Vercel.DriverState)
    (m : Vercel.VercelModel) :
    (Vercel.processModel false n d st m).store = st.store ∨
    ∃ v, (Vercel.processModel false n d st m).store = (Vercel.modelPath m, v) :: st.store := by
  cases hs : Vercel.skipType m.type
  · rcases hE : Vercel.lookupStore st.store (Vercel.modelPath m) with _ | e
    · right
      refine ⟨Vercel.toExistingOnDisk (Vercel.mergeModel m none d), ?_⟩
      simp only [Vercel.processModel, hs, Bool.false_eq_true, if_false, hE]
    · simp only [Vercel.processModel, hs, Bool.false_eq_true, if_false, hE]
      cases n
      · by_cases hch : (Vercel.detectChanges (some e) (Vercel.mergeModel m (some e) d)).length > 0
        · right
          refine ⟨Vercel.toExistingOnDisk (Vercel.mergeModel m (some e) d), ?_⟩
          simp [hch]
        · left
          simp [hch]
      · left
        simp
  · rw [processModel_skip false n d st m hs]
    exact Or.inl rfl

set_option maxHeartbeats 1000000 in
/-- One dry-run step and one real-run step taken from count-aligned states
whose stores agree at the model's path produce identical counts and
processed-id lists. -/
theorem processModel_agree (n : Bool) (d : String) (stD stR : Vercel.DriverState)
    (m : Vercel.VercelModel)
    (hc : stD.created = stR.created) (hu : stD.updated = stR.updated)
    (hun : stD.unchanged = stR.unchanged) (hi : stD.apiModelIds = stR.apiModelIds)
    (hlook : Vercel.lookupStore stR.store (Vercel.modelPath m) =
             Vercel.lookupStore stD.store (Vercel.modelPath m)) :
    (Vercel.processModel true n d stD m).created = (Vercel.processModel false n d stR m).created ∧
    (Vercel.processModel true n d stD m).updated = (Vercel.processModel false n d stR m).updated ∧
    (Vercel.processModel true n d stD m).unchanged = (Vercel.processModel false n d stR m).unchanged ∧
    (Vercel.processModel true n d stD m).apiModelIds = (Vercel.processModel false n d stR m).apiModelIds := by
  cases hs : Vercel.skipType m.type
  · rcases hE : Vercel.lookupStore stD.store (Vercel.modelPath m) with _ | e
    · rw [hE] at hlook
      simp only [Vercel.processModel, hs, Bool.false_eq_true, if_false, hE, hlook]
      simp [hc, hu, hun, hi]
    · rw [hE] at hlook
      simp only [Vercel.processModel, hs, Bool.false_eq_true, if_false, hE, hlook]
      cases n
      · by_cases hch : (Vercel.detectChanges (some e) (Vercel.mergeModel m (some e) d)).length > 0 <;>
          simp [hch, hc, hu, hun, hi]
      · simp [hc, hu, hun, hi]
  · rw [processModel_skip true n d stD m hs, processModel_skip false n d stR m hs]
    exact ⟨hc, hu, hun, hi⟩

/-- A dry-run loop never touches the store or the write log. -/
theorem runLoop_dry_pure (n : Bool) (d : String) (ms : List Vercel.VercelModel) :
    ∀ (st : Vercel.DriverState),
      (Vercel.runLoop true n d st ms).store = st.store ∧
      (Vercel.runLoop true n d st ms).writes = st.writes := by
  induction ms with
  | nil => intro st; exact ⟨rfl, rfl⟩
  | cons m ms ih =>
    intro st
    have hp := processModel_dry_store n d st m
    simp only [Vercel.runLoop]
    refine ⟨?_, ?_⟩
    · rw [(ih _).1, hp.1]
    · rw [(ih _).2, hp.2]

/-- The loop records exactly the non-skipped models' paths, in order,
independently of run mode and store contents. -/
theorem runLoop_ids (dr n : Bool) (d : String) (ms : List Vercel.VercelModel) :
    ∀ (st : Vercel.DriverState),
      (Vercel.runLoop dr n d st ms).apiModelIds = st.apiModelIds ++ Vercel.pathsOf ms := by
  induction ms with
  | nil => intro st; simp [Vercel.runLoop, Vercel.pathsOf]
  | cons m ms ih =>
    intro st
    simp only [Vercel.runLoop]
    rw [ih]
    cases hs : Vercel.skipType m.type
    · rw [processModel_ids dr n d st m hs, pathsOf_cons_nonskip m ms hs]
      simp
    · rw [processModel_skip dr n d st m hs, pathsOf_cons_skip m ms hs]

/-- Main driver invariant: when the non-skipped models map to pairwise
distinct paths, a dry-run loop and a real-run loop started from count-aligned
states whose stores agree on every remaining path produce identical counts
and processed ids. -/
theorem runLoop_agree (n : Bool) (d : String) (ms : List Vercel.VercelModel) :
    ∀ (stD stR : Vercel.DriverState),
      stD.created = stR.created → stD.updated = stR.updated →
      stD.unchanged = stR.unchanged → stD.apiModelIds = stR.apiModelIds →
      (∀ m2, m2 ∈ ms → Vercel.skipType m2.type = false →
        Vercel.lookupStore stR.store (Vercel.modelPath m2) =
          Vercel.lookupStore stD.store (Vercel.modelPath m2)) →
      (Vercel.pathsOf ms).Nodup →
      (Vercel.runLoop true n d stD ms).created = (Vercel.runLoop false n d stR ms).created ∧
      (Vercel.runLoop true n d stD ms).updated = (Vercel.runLoop false n d stR ms).updated ∧
      (Vercel.runLoop true n d stD ms).unchanged = (Vercel.runLoop false n d stR ms).unchanged ∧
      (Vercel.runLoop true n d stD ms).apiModelIds = (Vercel.runLoop false n d stR ms).apiModelIds := by
  induction ms with
  | nil => intro stD stR hc hu hun hi hlook hnd; exact ⟨hc, hu, hun, hi⟩
  | cons m ms ih =>
    intro stD stR hc hu hun hi hlook hnd
    simp only [Vercel.runLoop]
    cases hs : Vercel.skipType m.type
    · have hl := hlook m (List.mem_cons_self m ms) hs
      have hstep := processModel_agree n d stD stR m hc hu hun hi hl
      have hndc : (Vercel.modelPath m :: Vercel.pathsOf ms).Nodup := by
        rw [pathsOf_cons_nonskip m ms hs] at hnd
        exact hnd
      have hnotmem : Vercel.modelPath m ∉ Vercel.pathsOf ms :=
        (List.nodup_cons.mp hndc).1
      apply ih (Vercel.processModel true n d stD m) (Vercel.processModel false n d stR m)
        hstep.1 hstep.2.1 hstep.2.2.1 hstep.2.2.2 ?_ (List.nodup_cons.mp hndc).2
      intro m2 hm2 hs2
      have hne : Vercel.modelPath m ≠ Vercel.modelPath m2 := by
        intro heq
        exact hnotmem ((pathsOf_mem (Vercel.modelPath m) ms).mpr ⟨m2, hm2, hs2, heq.symm⟩)
      have hdry := (processModel_dry_store n d stD m).1
      rw [hdry]
      rcases processModel_real_store n d stR m with hr | ⟨v, hr⟩
      · rw [hr]
        exact hlook m2 (List.mem_cons_of_mem m hm2) hs2
      · rw [hr, lookupStore_cons, if_neg hne]
        exact hlook m2 (List.mem_cons_of_mem m hm2) hs2
    · rw [processModel_skip true n d stD m hs, processModel_skip false n d stR m hs]
      apply ih stD stR hc hu hun hi ?_ ?_
      · intro m2 hm2 hs2
        exact hlook m2 (List.mem_cons_of_mem m hm2) hs2
      · rw [pathsOf_cons_skip m ms hs] at hnd
        exact hnd

/-- C6 counterexample: with two identical source records the real run's
first write is seen by the second iteration's load, so the real run reports
1 created while the dry run reports 2 — identical inputs, different
counts. -/
theorem C6_cex :
    ¬ ((Vercel.runSync true false [cexC6Model, cexC6Model] [] [] "2026-01-02").created =
       (Vercel.runSync false false [cexC6Model, cexC6Model] [] [] "2026-01-02").created) := by
  decide

/-- C6 amended: provided the non-skipped source records map to pairwise
distinct store paths (in particular, no duplicate ids), a dry run and a real
run over identical inputs report identical created/updated/unchanged counts
and the same orphan list, and the dry run performs no store writes (its
write log is empty and the store is returned unchanged); with colliding
paths the counts can differ, because only the real run's writes are visible
to later loads. -/
theorem C6_dryrun_equivalence :
    ∀ (newOnly : Bool) (models : List Vercel.VercelModel)
      (store0 : List (String × Vercel.ExistingModel)) (files : List String) (d : String),
      (Vercel.pathsOf models).Nodup →
      (Vercel.runSync true newOnly models store0 files d).created =
        (Vercel.runSync false newOnly models store0 files d).created ∧
      (Vercel.runSync true newOnly models store0 files d).updated =
        (Vercel.runSync false newOnly models store0 files d).updated ∧
      (Vercel.runSync true newOnly models store0 files d).unchanged =
        (Vercel.runSync false newOnly models store0 files d).unchanged ∧
      (Vercel.runSync true newOnly models store0 files d).orphaned =
        (Vercel.runSync false newOnly models store0 files d).orphaned ∧
      (Vercel.runSync true newOnly models store0 files d).writes = [] ∧
      (Vercel.runSync true newOnly models store0 files d).store = store0 := by
  intro n models store0 files d hnd
  have hagree := runLoop_agree n d models { store := store0 } { store := store0 }
    rfl rfl rfl rfl (fun m2 hm2 hs2 => rfl) hnd
  have hdry := runLoop_dry_pure n d models { store := store0 }
  refine ⟨hagree.1, hagree.2.1, hagree.2.2.1, ?_, ?_, ?_⟩
  · simp only [Vercel.runSync]
    rw [hagree.2.2.2]
  · exact hdry.2
  · exact hdry.1

/-- C6 witness: the equivalence applied to one concrete model with a
distinct-path catalog. -/
theorem C6_witness :
    (Vercel.pathsOf [cexC6Model]).Nodup ∧
    (Vercel.runSync true false [cexC6Model] [] ["other.toml"] "2026-01-02").created =
      (Vercel.runSync false false [cexC6Model] [] ["other.toml"] "2026-01-02").created ∧
    (Vercel.runSync true false [cexC6Model] [] ["other.toml"] "2026-01-02").writes = [] :=
  ⟨by decide,
   (C6_dryrun_equivalence false [cexC6Model] [] ["other.toml"] "2026-01-02" (by decide)).1,
   (C6_dryrun_equivalence false [cexC6Model] [] ["other.toml"] "2026-01-02" (by decide)).2.2.2.2.1⟩

/-- C10: an image- or video-typed source model is skipped before its path is
recorded in the processed-id set, so when a persisted record exists on disk
for it (and no other processed model claims the same path) the run reports
that record as orphaned even though the source catalog still contains the
model. -/
theorem C10_image_video_orphan :
    ∀ (dryRun newOnly : Bool) (models : List Vercel.VercelModel)
      (store0 : List (String × Vercel.ExistingModel)) (files : List String) (d : String)
      (m : Vercel.VercelModel),
      m ∈ models →
      (m.type = Vercel.ModelType.image ∨ m.type = Vercel.ModelType.video) →
      (∀ m2, m2 ∈ models → Vercel.skipType m2.type = false →
        Vercel.modelPath m2 ≠ Vercel.modelPath m) →
      Vercel.modelPath m ∈ files →
      Vercel.modelPath m ∈ (Vercel.runSync dryRun newOnly models store0 files d).orphaned := by
  intro dr n models store0 files d m hm htype hunique hfile
  have hids : (Vercel.runLoop dr n d { store := store0 } models).apiModelIds =
      Vercel.pathsOf models := by
    rw [runLoop_ids]
    rfl
  have hnotin : Vercel.modelPath m ∉ Vercel.pathsOf models := by
    intro hmem
    rcases (pathsOf_mem _ models).mp hmem with ⟨m2, hm2, hs2, heq⟩
    exact hunique m2 hm2 hs2 heq
  show Vercel.modelPath m ∈ List.filter
    (fun f => !((Vercel.runLoop dr n d { store := store0 } models).apiModelIds.contains f)) files
  rw [List.mem_filter]
  refine ⟨hfile, ?_⟩
  rw [hids]
  simpa using hnotin

/-- C10 witness: a concrete image model whose persisted file is reported
orphaned. -/
theorem C10_witness :
    cexC10Model ∈ [cexC10Model] ∧
    (cexC10Model.type = Vercel.ModelType.image ∨ cexC10Model.type = Vercel.ModelType.video) ∧
    Vercel.modelPath cexC10Model ∈
      (Vercel.runSync false false [cexC10Model] [] [Vercel.modelPath cexC10Model]
        "2026-01-01").orphaned :=
  ⟨List.mem_singleton.mpr rfl, Or.inl rfl,
   C10_image_video_orphan false false [cexC10Model] [] [Vercel.modelPath cexC10Model]
     "2026-01-01" cexC10Model (List.mem_singleton.mpr rfl) (Or.inl rfl)
     (by decide) (List.mem_singleton.mpr rfl)⟩
